import Mathlib

/-!
Verification of the znapper snapshot-replication tool (src/main.rs) against its
natural-language specification.  The Rust source is shallowly embedded: each
external-process interaction is represented by an environment record giving the
outcome the operating system would report, and each session function returns the
chronological list of external effects it performs (snapshot creations and
destructions, process spawns and waits, dry-run log lines).
-/

set_option maxRecDepth 4000

namespace Znapper

/-- Rust `str::split(sep)` on a single-character separator, over the character
list of a string.  `split` always yields at least one (possibly empty) segment:
`"" ↦ [""]`, `"a\n" ↦ ["a", ""]`. -/
def splitOnCharList (sep : Char) : List Char → List (List Char)
  | [] => [[]]
  | c :: rest =>
    let r := splitOnCharList sep rest
    if c = sep then [] :: r
    else
      match r with
      | [] => [[c]]
      | h :: t => (c :: h) :: t

/-- String-level wrapper for `splitOnCharList`. -/
def splitStr (sep : Char) (s : String) : List String :=
  (splitOnCharList sep s.data).map List.asString

/-- Rust `snap.rsplit("@").next()`: the segment after the last `@`, or the whole
string when it has no `@`.  `rsplit` always yields at least one segment, so the
Rust `Option` is always `Some`; we return the string directly. -/
def rsplitNext (s : String) : String :=
  (splitStr '@' s).getLastD s

/-- Rust `precursor_name.split('@').next().unwrap()`: the segment before the
first `@`. -/
def splitFirst (s : String) : String :=
  (splitStr '@' s).headD s

/-- Rust `str::starts_with`. -/
def strStartsWith (s pre : String) : Bool :=
  pre.data.isPrefixOf s.data

/-- Rust `str::ends_with`. -/
def strEndsWith (s post : String) : Bool :=
  post.data.isSuffixOf s.data

/-- Lexicographic strict order on character sequences (helper for `strLt`). -/
def ltCharList : List Char → List Char → Bool
  | [], [] => false
  | [], _ :: _ => true
  | _ :: _, [] => false
  | a :: as, b :: bs => if a < b then true else if b < a then false else ltCharList as bs

/-- Rust `&str` ordering (`n < up_to_ts`): lexicographic on the character
sequence, which for UTF-8 text coincides with Rust's byte-wise comparison. -/
def strLt (a b : String) : Bool :=
  ltCharList a.data b.data

/-- Insert into a `≤`-sorted list of strings (helper for `sortStrings`). -/
def insertStr (a : String) : List String → List String
  | [] => [a]
  | b :: rest => if strLt a b then a :: b :: rest else b :: insertStr a rest

/-- Rust `Vec::sort_unstable` on strings (insertion sort; `sort_unstable`
leaves the order of equal elements unspecified, so any sort is a faithful
model). -/
def sortStrings : List String → List String
  | [] => []
  | a :: rest => insertStr a (sortStrings rest)

/-- `snap_list` (src/main.rs:141-178): the parsing step applied to the stdout of
the external `zfs list -H -t snapshot -o name` invocation.  The Rust code
returns every `"\n"`-separated segment of the output, without dropping blank
segments. -/
def snap_list_parse (stdout : String) : List String :=
  splitStr '\n' stdout

/-- `filter_snap_list` (src/main.rs:180-199): keep the snapshots whose label
(the segment after the final `@`) starts with `filter`, then sort ascending. -/
def filter_snap_list (filter : String) (stdout : String) : List String :=
  sortStrings ((snap_list_parse stdout).filter
    (fun snap => strStartsWith (rsplitNext snap) filter))

/-- The precursor search of `do_repl` (src/main.rs:453-479): scan `from_snaps`
newest-first (`.iter().rev()`); for each candidate scan `to_snaps` newest-first
and keep the candidate when some destination identifier ends with it; return the
first such candidate (`.take(1).next()`), or `none` (the Rust code then logs
"No previous matching snaps available" and aborts the session). -/
def precursorFind (from_snaps to_snaps : List String) : Option String :=
  (from_snaps.reverse.filterMap (fun from_snap =>
    (to_snaps.reverse.filterMap (fun to_snap =>
      if strEndsWith to_snap from_snap then some from_snap else none)).head?)).head?

/-! ## Civil-time model

Model of the `time` crate values used by the source: a civil date-time (local
offset fixed across one session), conversion to and from seconds since the
epoch (the standard Gregorian "days from civil" algorithm), subtraction of a
`Duration::hours` value, and the `"%Y_%m_%d_%H_%M_%S"` fixed-width format. -/

/-- A civil date-time, as carried by `time::OffsetDateTime` (the offset is
fixed across a session and irrelevant to the comparisons, so it is omitted). -/
structure Tm where
  year : Nat
  month : Nat
  day : Nat
  hour : Nat
  minute : Nat
  second : Nat
  deriving DecidableEq, Repr

/-- Days from 1970-01-01 to the given civil date (valid for dates from 1970
on); standard Gregorian-calendar computation. -/
def daysFromCivil (y m d : Nat) : Nat :=
  let y' := if m ≤ 2 then y - 1 else y
  let era := y' / 400
  let yoe := y' - era * 400
  let mp := if 2 < m then m - 3 else m + 9
  let doy := (153 * mp + 2) / 5 + d - 1
  let doe := yoe * 365 + yoe / 4 - yoe / 100 + doy
  era * 146097 + doe - 719468

/-- Inverse of `daysFromCivil`: civil date of the given day count since
1970-01-01. -/
def civilFromDays (z0 : Nat) : Nat × Nat × Nat :=
  let z := z0 + 719468
  let era := z / 146097
  let doe := z - era * 146097
  let yoe := (doe - doe / 1460 + doe / 36524 - doe / 146096) / 365
  let y := yoe + era * 400
  let doy := doe - (365 * yoe + yoe / 4 - yoe / 100)
  let mp := (5 * doy + 2) / 153
  let d := doy - (153 * mp + 2) / 5 + 1
  let m := if mp < 10 then mp + 3 else mp - 9
  (if m ≤ 2 then y + 1 else y, m, d)

/-- Seconds from the epoch to a civil date-time. -/
def toEpochSecs (t : Tm) : Nat :=
  (daysFromCivil t.year t.month t.day) * 86400
    + t.hour * 3600 + t.minute * 60 + t.second

/-- Civil date-time of a second count since the epoch. -/
def ofEpochSecs (n : Nat) : Tm :=
  let (y, m, d) := civilFromDays (n / 86400)
  let rem := n % 86400
  ⟨y, m, d, rem / 3600, rem % 3600 / 60, rem % 60⟩

/-- `t - time::Duration::hours(h)` on the underlying instant. -/
def subHours (t : Tm) (h : Nat) : Tm :=
  ofEpochSecs (toEpochSecs t - h * 3600)

/-- Zero-padded fixed-width decimal rendering (helper for `formatTs`). -/
def padNum (width n : Nat) : String :=
  let s := toString n
  List.asString (List.replicate (width - s.length) '0') ++ s

/-- The `"%Y_%m_%d_%H_%M_%S"` format used for every snapshot label in the
source (src/main.rs:285, 303, 343, 431). -/
def formatTs (t : Tm) : String :=
  padNum 4 t.year ++ "_" ++ padNum 2 t.month ++ "_" ++ padNum 2 t.day ++ "_"
    ++ padNum 2 t.hour ++ "_" ++ padNum 2 t.minute ++ "_" ++ padNum 2 t.second

/-! ## Age-based cleanup (`do_snap_cleanup`, src/main.rs:300-337) -/

/-- The cutoff label of `do_snap_cleanup`: `format!("auto_{}", now_ts)` where
`now_ts = (now - Duration::hours(keep_hours)).format("%Y_%m_%d_%H_%M_%S")`
(src/main.rs:301-319). -/
def cleanupCutoff (now : Tm) (keep_hours : Nat) : String :=
  "auto_" ++ formatTs (subHours now keep_hours)

/-- The removal set of `do_snap_cleanup` (src/main.rs:321-330): the snapshots
of the catalog whose post-`@` label starts with `auto_` and compares strictly
below the cutoff label. -/
def snapCleanupRemove (now : Tm) (keep_hours : Nat) (snaps : List String) :
    List String :=
  snaps.filter (fun snap_name =>
    strStartsWith (rsplitNext snap_name) "auto_"
      && strLt (rsplitNext snap_name) (cleanupCutoff now keep_hours))

/-! ## Effect traces and process outcomes

Each session function is embedded as a function from an environment record —
the outcomes the operating system reports for each external call — to the
chronological list of external effects the session performs.  A `.status()` or
`.wait()` call that returns `Err` (the command could not be run or reaped) is
modelled by `none`; `some st` carries the reported exit status. -/

/-- Rust `std::process::ExitStatus`: `code` is `None` when the process was
terminated by a signal; `success()` holds exactly when the code is zero. -/
structure ExitStatus where
  code : Option Int
  deriving DecidableEq, Repr

/-- Rust `ExitStatus::success`. -/
def ExitStatus.success (s : ExitStatus) : Bool :=
  s.code == some 0

/-- Rust `Result<(), ()>`. -/
inductive RResult where
  | ok
  | err
  deriving DecidableEq, Repr

/-- One observable external effect of a session. -/
inductive Eff where
  | createSnap (recurse : Bool) (name : String)
  | destroySnap (name : String)
  | spawnProducer (cmd : String)
  | consumerStatus (cmd : String)
  | producerWait
  | logDryCreate (name : String)
  | logDryRemove (name : String)
  | logDryPipeline (cmd : String)
  deriving DecidableEq, Repr

/-- Does the effect touch external state (spawn a process, create or destroy a
snapshot)?  Dry-run log lines do not. -/
def Eff.isReal : Eff → Bool
  | .createSnap _ _ => true
  | .destroySnap _ => true
  | .spawnProducer _ => true
  | .consumerStatus _ => true
  | .producerWait => true
  | .logDryCreate _ => false
  | .logDryRemove _ => false
  | .logDryPipeline _ => false

/-- The names whose snapshots a trace destroys. -/
def destroys (tr : List Eff) : List String :=
  tr.filterMap (fun e =>
    match e with
    | .destroySnap n => some n
    | _ => none)

/-- `remove_snap` (src/main.rs:217-235).  In dry-run mode only a log line is
produced.  Otherwise `zfs destroy -r` is invoked via `.status()`; an `Err`
(command could not run) maps to `Err(())`, while the reported exit status is
only `debug!`-logged, so any status — success or failure — maps to `Ok(())`. -/
def remove_snap (dry : Bool) (st : Option ExitStatus) (snap_name : String) :
    List Eff × RResult :=
  if dry then ([.logDryRemove snap_name], .ok)
  else
    ([.destroySnap snap_name],
      match st with
      | none => .err
      | some _ => .ok)

/-- `create_snap` (src/main.rs:237-254): `zfs snapshot`, same outcome shape as
`remove_snap`. -/
def create_snap (dry : Bool) (st : Option ExitStatus) (snap_name : String) :
    List Eff × RResult :=
  if dry then ([.logDryCreate snap_name], .ok)
  else
    ([.createSnap false snap_name],
      match st with
      | none => .err
      | some _ => .ok)

/-- `create_recurse_snap` (src/main.rs:256-274): `zfs snapshot -r`, same
outcome shape as `remove_snap`. -/
def create_recurse_snap (dry : Bool) (st : Option ExitStatus)
    (snap_name : String) : List Eff × RResult :=
  if dry then ([.logDryCreate snap_name], .ok)
  else
    ([.createSnap true snap_name],
      match st with
      | none => .err
      | some _ => .ok)

/-- Best-effort removal loop over a snapshot list (`for leftover_snap in snaps
{ let _ = remove_snap(..) }`, src/main.rs:422-424 and 504-510): results are
discarded, every snapshot is attempted. -/
def cleanupTrace (dry : Bool) (removeStatus : String → Option ExitStatus)
    (snaps : List String) : List Eff :=
  (snaps.map (fun s => (remove_snap dry (removeStatus s) s).1)).flatten

/-- Outcomes the operating system reports for one producer/consumer pipeline:
whether the producer `spawn()` succeeded, the consumer `.status()` result, and
the producer `.wait()` result. -/
structure PipeOutcome where
  sendSpawn : Bool
  recvStatus : Option ExitStatus
  sendWait : Option ExitStatus

/-- The resolved producer command line of `do_repl_inner`
(src/main.rs:525-534). -/
def sendCmdIncr (precursor basesnap : String) : String :=
  "zfs send -v -R -w -L -I " ++ precursor ++ " " ++ basesnap

/-- The resolved consumer command line of `do_repl_inner` and `do_init`
(src/main.rs:397-404 and 545-552). -/
def recvCmd (to_pool : String) : String :=
  "zfs recv -o mountpoint=none -o readonly=on " ++ to_pool

/-- `do_repl_inner` (src/main.rs:513-589).  Dry-run logs the resolved pipeline
and reports success.  Otherwise: spawn the producer (fail fast on spawn error);
run the consumer to completion via `.status()`; accept exactly exit code `0`
(an absent code is `unwrap_or(255)`); only then `wait()` on the producer and
require `status.success()`. -/
def do_repl_inner (dry : Bool) (to_pool precursor_name basesnap_name : String)
    (pipe : PipeOutcome) : List Eff × RResult :=
  if dry then
    ([.logDryPipeline (sendCmdIncr precursor_name basesnap_name ++ " | "
      ++ recvCmd to_pool)], .ok)
  else if !pipe.sendSpawn then
    ([.spawnProducer (sendCmdIncr precursor_name basesnap_name)], .err)
  else
    let pre : List Eff := [.spawnProducer (sendCmdIncr precursor_name basesnap_name),
      .consumerStatus (recvCmd to_pool)]
    match pipe.recvStatus with
    | none => (pre, .err)
    | some st =>
      if st.code.getD 255 == 0 then
        match pipe.sendWait with
        | none => (pre ++ [.producerWait], .err)
        | some st2 =>
          (pre ++ [.producerWait], if st2.success then .ok else .err)
      else (pre, .err)

/-- Environment of one `do_repl` session: the clock reading, the two catalog
command outputs, and the per-invocation outcomes of the external calls. -/
structure ReplEnv where
  nowTs : Option String
  fromOut : Option String
  toOut : Option String
  createStatus : Option ExitStatus
  pipe : PipeOutcome
  removeStatus : String → Option ExitStatus

/-- `do_repl` (src/main.rs:427-511): read the clock; list `repl_` snapshots on
both pools; resolve the precursor; create the new base snapshot; run the
pipeline; on pipeline failure destroy the just-created base snapshot and
return; on success best-effort remove every snapshot of the two captured
catalogs. -/
def do_repl (dry : Bool) (from_pool to_pool : String) (env : ReplEnv) :
    List Eff :=
  match env.nowTs with
  | none => []
  | some now_ts =>
    match env.fromOut with
    | none => []
    | some from_out =>
      match env.toOut with
      | none => []
      | some to_out =>
        let from_snaps := filter_snap_list "repl_" from_out
        let to_snaps := filter_snap_list "repl_" to_out
        match precursorFind from_snaps to_snaps with
        | none => []
        | some precursor_name =>
          let basesnap_name := from_pool ++ "@repl_" ++ now_ts
          let created := create_recurse_snap dry env.createStatus basesnap_name
          if created.2 = .err then created.1
          else
            let inner := do_repl_inner dry to_pool precursor_name basesnap_name
              env.pipe
            if inner.2 = .err then
              created.1 ++ inner.1
                ++ (remove_snap dry (env.removeStatus basesnap_name)
                  basesnap_name).1
            else
              created.1 ++ inner.1
                ++ cleanupTrace dry env.removeStatus from_snaps
                ++ cleanupTrace dry env.removeStatus to_snaps

/-- The resolved producer command line of `do_init` (src/main.rs:379-387). -/
def sendCmdFull (basesnap : String) : String :=
  "zfs send -v -R -w -L " ++ basesnap

/-- Environment of one `do_init` session. -/
structure InitEnv where
  nowTs : Option String
  fromOut : Option String
  createStatus : Option ExitStatus
  sendSpawn : Bool
  recvStatus : Option ExitStatus
  sendWait : Option ExitStatus
  removeStatus : String → Option ExitStatus

/-- `do_init` (src/main.rs:339-425): list `repl_` snapshots, create the new
base snapshot, run the full send/recv pipeline, then best-effort remove the
captured catalog.  The early `return`s of the source on producer spawn
failure, consumer `.status()` error and producer `wait()` error leave the
just-created snapshot in place (no compensating removal), and a consumer or
producer exit status is never examined — only `Err` results are. -/
def do_init (dry : Bool) (from_pool to_pool : String) (env : InitEnv) :
    List Eff :=
  match env.nowTs with
  | none => []
  | some now_ts =>
    match env.fromOut with
    | none => []
    | some from_out =>
      let snaps := filter_snap_list "repl_" from_out
      let basesnap_name := from_pool ++ "@repl_" ++ now_ts
      let created := create_recurse_snap dry env.createStatus basesnap_name
      if created.2 = .err then created.1
      else if dry then
        created.1 ++ [.logDryPipeline (sendCmdFull basesnap_name ++ " | "
            ++ recvCmd to_pool)]
          ++ cleanupTrace dry env.removeStatus snaps
      else if !env.sendSpawn then
        created.1 ++ [.spawnProducer (sendCmdFull basesnap_name)]
      else
        let pre := created.1 ++ [.spawnProducer (sendCmdFull basesnap_name),
          .consumerStatus (recvCmd to_pool)]
        match env.recvStatus with
        | none => pre
        | some _ =>
          match env.sendWait with
          | none => pre ++ [.producerWait]
          | some _ => pre ++ [.producerWait]
            ++ cleanupTrace dry env.removeStatus snaps

/-! ## Archive metadata sidecar (`RemoteMetadata`, src/main.rs:101-104)

`do_init_archive` serializes `RemoteMetadata { precursor_snap }` with
`serde_json::to_writer` (src/main.rs:630-638) and `do_repl_remote` reads it
back with `serde_json::from_reader` (src/main.rs:796-809).  The serializer and
the deserializer restricted to the emitted document shape are modelled
character by character: `serde_json` emits
`{"precursor_snap":"<escaped>"}` with `"`, `\` and control characters
escaped. -/

/-- Lower-case hexadecimal digit (as emitted by `serde_json`'s `\u00XX`
control-character escapes). -/
def hexDigitChar (n : Nat) : Char :=
  if n < 10 then Char.ofNat (48 + n) else Char.ofNat (87 + n)

/-- The escape sequence `serde_json` emits for one character of a JSON
string. -/
def escChar (c : Char) : List Char :=
  if c = '"' then ['\\', '"']
  else if c = '\\' then ['\\', '\\']
  else if c = '\x08' then ['\\', 'b']
  else if c = '\x0c' then ['\\', 'f']
  else if c = '\n' then ['\\', 'n']
  else if c = '\r' then ['\\', 'r']
  else if c = '\t' then ['\\', 't']
  else if c.toNat < 32 then
    ['\\', 'u', '0', '0', hexDigitChar (c.toNat / 16), hexDigitChar (c.toNat % 16)]
  else [c]

/-- JSON string-body escaping, character by character. -/
def escapeChars : List Char → List Char
  | [] => []
  | c :: rest => escChar c ++ escapeChars rest

/-- `serde_json::to_writer(&meta, &RemoteMetadata { precursor_snap })`
(src/main.rs:630-638): the document written to the metadata sidecar. -/
def writeMeta (precursor_snap : String) : String :=
  "\x7b\"precursor_snap\":\"" ++ (escapeChars precursor_snap.data).asString
    ++ "\"\x7d"

/-- Value of a JSON short escape character (`\"`, `\\`, `\/`, `\b`, `\f`,
`\n`, `\r`, `\t`). -/
def decodeEsc (e : Char) : Option Char :=
  if e = '"' then some '"'
  else if e = '\\' then some '\\'
  else if e = '/' then some '/'
  else if e = 'b' then some '\x08'
  else if e = 'f' then some '\x0c'
  else if e = 'n' then some '\n'
  else if e = 'r' then some '\r'
  else if e = 't' then some '\t'
  else none

/-- Value of one hexadecimal digit character. -/
def parseHexDigit (c : Char) : Option Nat :=
  if '0' ≤ c ∧ c ≤ '9' then some (c.toNat - 48)
  else if 'a' ≤ c ∧ c ≤ 'f' then some (c.toNat - 87)
  else if 'A' ≤ c ∧ c ≤ 'F' then some (c.toNat - 55)
  else none

/-- Parse a JSON string body up to its closing quote; returns the decoded
content and the remaining characters after the quote. -/
def parseStrBody : List Char → Option (List Char × List Char)
  | [] => none
  | c :: rest =>
    if c = '\\' then
      match rest with
      | [] => none
      | e :: rest2 =>
        if e = 'u' then
          match rest2 with
          | h1 :: h2 :: h3 :: h4 :: rest3 =>
            match parseHexDigit h1, parseHexDigit h2, parseHexDigit h3,
                parseHexDigit h4 with
            | some a, some b, some x, some d =>
              match parseStrBody rest3 with
              | some (s, r) =>
                some (Char.ofNat (((a * 16 + b) * 16 + x) * 16 + d) :: s, r)
              | none => none
            | _, _, _, _ => none
          | _ => none
        else
          match decodeEsc e with
          | some d =>
            match parseStrBody rest2 with
            | some (s, r) => some (d :: s, r)
            | none => none
          | none => none
    else if c = '"' then some ([], rest)
    else
      match parseStrBody rest with
      | some (s, r) => some (c :: s, r)
      | none => none

/-- Strip an expected literal prefix. -/
def dropPrefixChars : List Char → List Char → Option (List Char)
  | [], rest => some rest
  | _ :: _, [] => none
  | p :: ps, c :: cs => if p = c then dropPrefixChars ps cs else none

/-- `serde_json::from_reader::<_, RemoteMetadata>` (src/main.rs:796-809)
restricted to the document shape `to_writer` emits: parse
`{"precursor_snap":"<escaped>"}` and return the decoded field. -/
def readMeta (contents : String) : Option String :=
  match dropPrefixChars "\x7b\"precursor_snap\":\"".data contents.data with
  | none => none
  | some rest =>
    match parseStrBody rest with
    | none => none
    | some (content, rem) =>
      if rem = ['\x7d'] then some content.asString else none

/-! ## Remote replication (`do_repl_remote`, src/main.rs:756-898) -/

/-- `get_auto_basesnap` (src/main.rs:591-599): the label (post-`@` segment) of
the last — newest, the catalog being sorted ascending — `auto_` snapshot, from
the catalog command output. -/
def get_auto_basesnap (autoOut : Option String) : Option String :=
  match autoOut with
  | none => none
  | some out => ((filter_snap_list "auto_" out).getLast?).map rsplitNext

/-- The resolved producer command line of `do_repl_remote`
(src/main.rs:840-850). -/
def sshSendCmd (precursor basesnap : String) : String :=
  "zfs send -v -R -L -w -I " ++ precursor ++ " " ++ basesnap

/-- The resolved consumer command line of `do_repl_remote`
(src/main.rs:860-863). -/
def sshCmd (remote_ssh : String) : String :=
  "ssh " ++ remote_ssh

/-- The pipeline section of `do_repl_remote` (src/main.rs:828-897).  Same
structure as `do_repl_inner`, but the consumer is the remote-shell transport
and its exit status is accepted when it is `1` or `0`
(`if code == 1 || code == 0`, src/main.rs:868). -/
def do_remote_pipeline (dry : Bool) (remote_ssh precursor_name basesnap_name :
    String) (pipe : PipeOutcome) : List Eff × RResult :=
  if dry then
    ([.logDryPipeline (sshSendCmd precursor_name basesnap_name ++ " | "
      ++ sshCmd remote_ssh)], .ok)
  else if !pipe.sendSpawn then
    ([.spawnProducer (sshSendCmd precursor_name basesnap_name)], .err)
  else
    let pre : List Eff := [.spawnProducer (sshSendCmd precursor_name basesnap_name),
      .consumerStatus (sshCmd remote_ssh)]
    match pipe.recvStatus with
    | none => (pre, .err)
    | some st =>
      if st.code.getD 255 == 1 || st.code.getD 255 == 0 then
        match pipe.sendWait with
        | none => (pre ++ [.producerWait], .err)
        | some st2 =>
          (pre ++ [.producerWait], if st2.success then .ok else .err)
      else (pre, .err)

/-- Environment of one `do_repl_remote` session: the metadata sidecar contents
(`none` when the file cannot be opened), the catalog command output per pool,
and the pipeline outcomes. -/
structure RemoteEnv where
  metaFile : Option String
  autoOut : String → Option String
  pipe : PipeOutcome

/-- `do_repl_remote` (src/main.rs:756-898): recover the precursor from the
metadata sidecar, derive the pool from it (`split('@').next()`), pick the
newest `auto_` snapshot label of that pool as the new base, and run the
remote-shell pipeline. -/
def do_repl_remote (dry : Bool) (remote_ssh : String) (env : RemoteEnv) :
    List Eff × RResult :=
  match env.metaFile.bind readMeta with
  | none => ([], .err)
  | some precursor_name =>
    let pool := splitFirst precursor_name
    match get_auto_basesnap (env.autoOut pool) with
    | none => ([], .err)
    | some basesnap_name =>
      do_remote_pipeline dry remote_ssh precursor_name basesnap_name env.pipe

/-- Environment of one `do_snap_cleanup` session (src/main.rs:300-337). -/
structure CleanupEnv where
  now : Option Tm
  autoOut : Option String
  removeStatus : String → Option ExitStatus

/-- `do_snap_cleanup` (src/main.rs:300-337): read the clock, list the `auto_`
snapshots of the pool, and best-effort remove every one whose label compares
below the cutoff. -/
def do_snap_cleanup (dry : Bool) (keep_hours : Nat) (env : CleanupEnv) :
    List Eff :=
  match env.now with
  | none => []
  | some now =>
    match env.autoOut with
    | none => []
    | some out =>
      cleanupTrace dry env.removeStatus
        (snapCleanupRemove now keep_hours (filter_snap_list "auto_" out))

/-- Does every `producerWait` of the trace come after a `consumerStatus`
(i.e. is the consumer always waited on first)? -/
def consumerFirst : List Eff → Bool
  | [] => true
  | .producerWait :: _ => false
  | .consumerStatus _ :: _ => true
  | _ :: rest => consumerFirst rest

end Znapper

namespace Znapper

/-! ## Helper lemmas -/

theorem head?_filterMap_guard {α : Type} (p : α → Bool) :
    ∀ l : List α,
      (l.filterMap (fun a => if p a then some a else none)).head? = l.find? p := by
  intro l
  induction l with
  | nil => rfl
  | cons a t ih =>
    by_cases h : p a <;> simp [List.filterMap_cons, List.find?_cons, h, ih]

theorem head?_filterMap_const {α β : Type} (q : α → Bool) (b : β) :
    ∀ l : List α,
      (l.filterMap (fun a => if q a then some b else none)).head? =
        if l.any q then some b else none := by
  intro l
  induction l with
  | nil => rfl
  | cons a t ih =>
    by_cases h : q a <;> simp [List.filterMap_cons, h, ih]

/-- The nested newest-first scan of `do_repl` is the newest-first search for a
candidate that is a suffix of some destination identifier. -/
theorem precursorFind_eq_find (fs ts : List String) :
    precursorFind fs ts =
      fs.reverse.find? (fun f => ts.any (fun t => strEndsWith t f)) := by
  unfold precursorFind
  have h1 : ∀ f : String,
      (ts.reverse.filterMap
        (fun t => if strEndsWith t f then some f else none)).head? =
        if ts.any (fun t => strEndsWith t f) then some f else none := by
    intro f
    rw [head?_filterMap_const]
    simp
  simp only [h1]
  exact head?_filterMap_guard _ _

theorem mem_insertStr (a b : String) (l : List String) :
    a ∈ insertStr b l ↔ a = b ∨ a ∈ l := by
  induction l with
  | nil => simp [insertStr]
  | cons c t ih =>
    simp only [insertStr]
    by_cases h : strLt b c
    · simp [h]
    · simp [h, ih]
      tauto

theorem mem_sortStrings (a : String) (l : List String) :
    a ∈ sortStrings l ↔ a ∈ l := by
  induction l with
  | nil => simp [sortStrings]
  | cons b t ih => simp [sortStrings, mem_insertStr, ih]

theorem destroys_append (a b : List Eff) :
    destroys (a ++ b) = destroys a ++ destroys b := by
  simp [destroys, List.filterMap_append]

theorem destroys_createSnap (r : Bool) (n : String) :
    destroys [Eff.createSnap r n] = [] :=
  rfl

theorem destroys_destroySnap (n : String) :
    destroys [Eff.destroySnap n] = [n] :=
  rfl

theorem destroys_spawnConsume (c1 c2 : String) :
    destroys [Eff.spawnProducer c1, Eff.consumerStatus c2] = [] :=
  rfl

theorem destroys_cons_create (r : Bool) (n : String) (tr : List Eff) :
    destroys (Eff.createSnap r n :: tr) = destroys tr :=
  rfl

theorem destroys_cons_destroy (n : String) (tr : List Eff) :
    destroys (Eff.destroySnap n :: tr) = n :: destroys tr :=
  rfl

theorem destroys_nil : destroys [] = [] :=
  rfl

theorem cleanupTrace_cons (dry : Bool) (rs : String → Option ExitStatus)
    (s : String) (t : List String) :
    cleanupTrace dry rs (s :: t) =
      (remove_snap dry (rs s) s).1 ++ cleanupTrace dry rs t := by
  simp [cleanupTrace]

theorem destroys_cleanupTrace (rs : String → Option ExitStatus)
    (snaps : List String) :
    destroys (cleanupTrace false rs snaps) = snaps := by
  induction snaps with
  | nil => rfl
  | cons s t ih =>
    rw [cleanupTrace_cons, destroys_append, ih]
    rfl

theorem cleanupTrace_dry (rs : String → Option ExitStatus)
    (snaps : List String) :
    cleanupTrace true rs snaps = snaps.map Eff.logDryRemove := by
  induction snaps with
  | nil => rfl
  | cons s t ih =>
    rw [cleanupTrace_cons, ih]
    rfl

theorem destroys_do_repl_inner (dry : Bool) (tp p b : String)
    (pipe : PipeOutcome) :
    destroys (do_repl_inner dry tp p b pipe).1 = [] := by
  rcases pipe with ⟨ss, rs, sw⟩
  cases dry <;> cases ss <;> rcases rs with _ | st <;> rcases sw with _ | st2 <;>
    simp [do_repl_inner, destroys] <;> split <;> simp [destroys]

end Znapper

namespace Znapper

/-! ## Claim theorems -/

/-- C1: `PrecursorResolver` (the precursor search of `do_repl`,
src/main.rs:453-479) scans `from_snaps` newest-first, testing for each
candidate whether some destination identifier ends with it, and returns the
first matching candidate: it equals the newest-first search
`from_snaps.reverse.find?`; on `from = [s1, s2, s3]`, `to = [x@s1, x@s2]` it
returns `s2`; and when no candidate is a suffix of any destination identifier
it returns `none` (the `NoPrecursorError` path: "No previous matching snaps
available"). -/
theorem C1_precursor_resolution :
    precursorFind ["s1", "s2", "s3"] ["x@s1", "x@s2"] = some "s2" ∧
    (∀ from_snaps to_snaps : List String,
      precursorFind from_snaps to_snaps =
        from_snaps.reverse.find? (fun f => to_snaps.any (fun t => strEndsWith t f))) ∧
    (∀ from_snaps to_snaps : List String,
      (∀ f ∈ from_snaps, ∀ t ∈ to_snaps, strEndsWith t f = false) →
        precursorFind from_snaps to_snaps = none) := by
  refine ⟨by decide, precursorFind_eq_find, ?_⟩
  intro fs ts h
  rw [precursorFind_eq_find, List.find?_eq_none]
  intro f hf hany
  rw [List.mem_reverse] at hf
  rw [List.any_eq_true] at hany
  obtain ⟨t, ht, he⟩ := hany
  rw [h f hf t ht] at he
  exact Bool.false_ne_true he

/-- Closed instance of `C1_precursor_resolution`: the no-match hypothesis
discharged on disjoint catalogs. -/
theorem C1_precursor_resolution_witness :
    precursorFind ["tank@repl_1"] ["back@repl_9"] = none ∧
    precursorFind ["s1", "s2", "s3"] ["x@s1", "x@s2"] = some "s2" :=
  ⟨C1_precursor_resolution.2.2 ["tank@repl_1"] ["back@repl_9"] (by decide),
    C1_precursor_resolution.1⟩

/-- C10: the non-dry-run snapshot operations (`remove_snap`, `create_snap`,
`create_recurse_snap`, src/main.rs:217-274) return `Ok` whenever the `zfs`
process could be spawned and waited on — whatever its exit status, zero or
not — and return `Err` exactly when the command could not be run at all. -/
theorem C10_snap_ops_ignore_exit_status :
    ∀ (name : String) (st : ExitStatus),
      (remove_snap false (some st) name).2 = .ok ∧
      (create_snap false (some st) name).2 = .ok ∧
      (create_recurse_snap false (some st) name).2 = .ok ∧
      (remove_snap false none name).2 = .err ∧
      (create_snap false none name).2 = .err ∧
      (create_recurse_snap false none name).2 = .err := by
  intro name st
  exact ⟨rfl, rfl, rfl, rfl, rfl, rfl⟩

/-- C8 counterexample: `snap_list` (src/main.rs:141-178) does not drop blank
lines — on the newline-terminated enumeration output `"tank@auto_1\n"` it
returns a trailing empty-string entry, so its result does contain an
empty-string entry. -/
theorem C8_counterexample :
    snap_list_parse "tank@auto_1\n" = ["tank@auto_1", ""] ∧
    "" ∈ snap_list_parse "tank@auto_1\n" := by
  constructor
  · decide
  · decide

/-- C8 amended: `snap_list` returns one entry per newline-delimited segment of
the enumeration output including blank segments (a newline-terminated output
yields a trailing empty entry); blank entries are only dropped downstream by
the kind filter, so the filtered catalogs `filter_snap_list "repl_"` /
`filter_snap_list "auto_"` used by every session never contain an empty-string
entry. -/
theorem C8_amended_snap_list :
    snap_list_parse "tank@auto_1\ntank@auto_2\n" =
      ["tank@auto_1", "tank@auto_2", ""] ∧
    (∀ stdout : String, "" ∉ filter_snap_list "repl_" stdout) ∧
    (∀ stdout : String, "" ∉ filter_snap_list "auto_" stdout) := by
  refine ⟨by decide, ?_, ?_⟩
  · intro stdout h
    rw [filter_snap_list, mem_sortStrings, List.mem_filter] at h
    exact absurd h.2 (by decide)
  · intro stdout h
    rw [filter_snap_list, mem_sortStrings, List.mem_filter] at h
    exact absurd h.2 (by decide)

end Znapper

namespace Znapper

/-- C6: `do_snap_cleanup` with parameter `keep_hours` removes exactly the
automatic-kind snapshots whose label compares strictly below
`"auto_" ++ format(now - keep_hours)`: the destroyed names of a non-dry
session are exactly the removal set, membership in the removal set is exactly
the label comparison of the claim, and for `keep_hours = 24` with automatic
snapshots timestamped `now-48h, now-25h, now-23h, now-1h` exactly the first
two are removed. -/
theorem C6_age_based_cleanup :
    (∀ (now : Tm) (keep_hours : Nat) (out : String)
      (rs : String → Option ExitStatus),
      destroys (do_snap_cleanup false keep_hours ⟨some now, some out, rs⟩) =
        snapCleanupRemove now keep_hours (filter_snap_list "auto_" out)) ∧
    (∀ (now : Tm) (keep_hours : Nat) (snaps : List String) (s : String),
      s ∈ snapCleanupRemove now keep_hours snaps ↔
        s ∈ snaps ∧ strStartsWith (rsplitNext s) "auto_" = true ∧
          strLt (rsplitNext s) ("auto_" ++ formatTs (subHours now keep_hours))
            = true) ∧
    snapCleanupRemove ⟨2026, 10, 12, 12, 0, 0⟩ 24
      ["tank@auto_" ++ formatTs (subHours ⟨2026, 10, 12, 12, 0, 0⟩ 48),
        "tank@auto_" ++ formatTs (subHours ⟨2026, 10, 12, 12, 0, 0⟩ 25),
        "tank@auto_" ++ formatTs (subHours ⟨2026, 10, 12, 12, 0, 0⟩ 23),
        "tank@auto_" ++ formatTs (subHours ⟨2026, 10, 12, 12, 0, 0⟩ 1)] =
      ["tank@auto_" ++ formatTs (subHours ⟨2026, 10, 12, 12, 0, 0⟩ 48),
        "tank@auto_" ++ formatTs (subHours ⟨2026, 10, 12, 12, 0, 0⟩ 25)] := by
  refine ⟨?_, ?_, by decide⟩
  · intro now keep_hours out rs
    exact destroys_cleanupTrace rs _
  · intro now keep_hours snaps s
    rw [snapCleanupRemove, List.mem_filter, Bool.and_eq_true, cleanupCutoff]

/-- C4: the consumer exit status accepted by the local pool-to-pool pipeline
(`do_repl_inner`, src/main.rs:555-570) is exactly `0`, the one accepted by the
remote-shell pipeline (`do_repl_remote`, src/main.rs:865-880) is exactly `0`
or `1` — an absent exit code is `unwrap_or(255)` and hence rejected — and any
other status makes the session fail instead of reaching confirmation.  The
session "proceeds past the consumer check" exactly when it goes on to wait on
the producer. -/
theorem C4_consumer_accept_set :
    ∀ (to_pool precursor basesnap remote_ssh : String) (pipe : PipeOutcome)
      (st : ExitStatus),
      pipe.sendSpawn = true → pipe.recvStatus = some st →
      ((Eff.producerWait ∈ (do_repl_inner false to_pool precursor basesnap pipe).1)
        ↔ st.code = some 0) ∧
      ((Eff.producerWait ∈
          (do_remote_pipeline false remote_ssh precursor basesnap pipe).1)
        ↔ (st.code = some 0 ∨ st.code = some 1)) ∧
      (st.code ≠ some 0 →
        (do_repl_inner false to_pool precursor basesnap pipe).2 = .err) ∧
      (¬(st.code = some 0 ∨ st.code = some 1) →
        (do_remote_pipeline false remote_ssh precursor basesnap pipe).2 = .err) := by
  intro to_pool precursor basesnap remote_ssh pipe st hspawn hrecv
  rcases pipe with ⟨ss, rs, sw⟩
  simp only at hspawn hrecv
  subst hspawn
  subst hrecv
  rcases st with ⟨c⟩
  rcases c with _ | c
  · rcases sw with _ | st2 <;>
      simp [do_repl_inner, do_remote_pipeline]
  · rcases sw with _ | st2 <;>
    · constructor
      · simp only [do_repl_inner]
        by_cases hc : c = 0 <;> simp [hc]
      · constructor
        · simp only [do_remote_pipeline]
          by_cases hc : c = 0 <;> by_cases hc1 : c = 1 <;> simp [hc, hc1]
        · constructor
          · intro hne
            have hc : ¬c = 0 := fun h => hne (by simp [h])
            simp [do_repl_inner, hc]
          · intro hne
            have hc : ¬c = 0 := fun h => hne (Or.inl (by simp [h]))
            have hc1 : ¬c = 1 := fun h => hne (Or.inr (by simp [h]))
            simp [do_remote_pipeline, hc, hc1]

end Znapper

namespace Znapper

/-- A pipeline environment in which every external call succeeds with exit
code `0` (used to instantiate hypothesis-carrying theorems). -/
def pipeOk : PipeOutcome :=
  ⟨true, some ⟨some 0⟩, some ⟨some 0⟩⟩

/-- Closed instance of `C4_consumer_accept_set` at an all-successful pipeline:
the local session proceeds to wait on the producer when the consumer exited
with code `0`. -/
theorem C4_consumer_accept_set_witness :
    Eff.producerWait ∈ (do_repl_inner false "tank/b" "p" "b" pipeOk).1 ∧
    Eff.producerWait ∈ (do_remote_pipeline false "r" "p" "b" pipeOk).1 ∧
    (do_repl_inner false "tank/b" "p" "b" ⟨true, some ⟨some 7⟩,
      some ⟨some 0⟩⟩).2 = .err ∧
    (do_remote_pipeline false "r" "p" "b" ⟨true, some ⟨some 7⟩,
      some ⟨some 0⟩⟩).2 = .err :=
  ⟨((C4_consumer_accept_set "tank/b" "p" "b" "r" pipeOk ⟨some 0⟩ rfl rfl).1).mpr
      rfl,
    ((C4_consumer_accept_set "tank/b" "p" "b" "r" pipeOk ⟨some 0⟩ rfl
      rfl).2.1).mpr (Or.inl rfl),
    (C4_consumer_accept_set "tank/b" "p" "b" "r" ⟨true, some ⟨some 7⟩,
      some ⟨some 0⟩⟩ ⟨some 7⟩ rfl rfl).2.2.1 (by decide),
    (C4_consumer_accept_set "tank/b" "p" "b" "r" ⟨true, some ⟨some 7⟩,
      some ⟨some 0⟩⟩ ⟨some 7⟩ rfl rfl).2.2.2 (by decide)⟩

theorem consumerFirst_spawn (c : String) (tr : List Eff) :
    consumerFirst (Eff.spawnProducer c :: tr) = consumerFirst tr :=
  rfl

theorem consumerFirst_consumer (c : String) (tr : List Eff) :
    consumerFirst (Eff.consumerStatus c :: tr) = true :=
  rfl

/-- C5: in both process-to-process pipelines (`do_repl_inner`,
src/main.rs:545-584, and `do_repl_remote`, src/main.rs:860-894) the consumer
is run to completion (`.status()`) before any wait on the producer occurs in
the trace, and the producer's exit status is examined only after the
consumer's status has been obtained and found inside the accepted set. -/
theorem C5_consumer_before_producer :
    ∀ (dry : Bool) (to_pool precursor basesnap remote_ssh : String)
      (pipe : PipeOutcome),
      consumerFirst (do_repl_inner dry to_pool precursor basesnap pipe).1
        = true ∧
      consumerFirst (do_remote_pipeline dry remote_ssh precursor basesnap
        pipe).1 = true ∧
      (Eff.producerWait ∈ (do_repl_inner dry to_pool precursor basesnap pipe).1 →
        dry = false ∧ ∃ st, pipe.recvStatus = some st ∧ st.code.getD 255 = 0) ∧
      (Eff.producerWait ∈
          (do_remote_pipeline dry remote_ssh precursor basesnap pipe).1 →
        dry = false ∧ ∃ st, pipe.recvStatus = some st ∧
          (st.code.getD 255 = 1 ∨ st.code.getD 255 = 0)) := by
  intro dry to_pool precursor basesnap remote_ssh pipe
  rcases pipe with ⟨ss, rs, sw⟩
  refine ⟨?_, ?_, ?_, ?_⟩
  · cases dry
    · cases ss
      · rfl
      · rcases rs with _ | st
        · rfl
        · by_cases hc : st.code.getD 255 = 0 <;>
            rcases sw with _ | st2 <;>
              simp [do_repl_inner, hc, consumerFirst_spawn,
                consumerFirst_consumer]
    · rfl
  · cases dry
    · cases ss
      · rfl
      · rcases rs with _ | st
        · rfl
        · by_cases h1 : st.code.getD 255 = 1 <;>
            by_cases h0 : st.code.getD 255 = 0 <;>
              rcases sw with _ | st2 <;>
                simp [do_remote_pipeline, h1, h0, consumerFirst_spawn,
                  consumerFirst_consumer]
    · rfl
  · cases dry
    · cases ss
      · intro h
        simp [do_repl_inner] at h
      · rcases rs with _ | st
        · intro h
          simp [do_repl_inner] at h
        · by_cases hc : st.code.getD 255 = 0
          · intro h
            exact ⟨rfl, st, rfl, hc⟩
          · intro h
            rcases sw with _ | st2 <;> simp [do_repl_inner, hc] at h
    · intro h
      simp [do_repl_inner] at h
  · cases dry
    · cases ss
      · intro h
        simp [do_remote_pipeline] at h
      · rcases rs with _ | st
        · intro h
          simp [do_remote_pipeline] at h
        · by_cases h1 : st.code.getD 255 = 1
          · intro h
            exact ⟨rfl, st, rfl, Or.inl h1⟩
          · by_cases h0 : st.code.getD 255 = 0
            · intro h
              exact ⟨rfl, st, rfl, Or.inr h0⟩
            · intro h
              rcases sw with _ | st2 <;>
                simp [do_remote_pipeline, h1, h0] at h
    · intro h
      simp [do_remote_pipeline] at h

/-- Closed instance of `C5_consumer_before_producer` at an all-successful
pipeline, with its membership hypotheses discharged. -/
theorem C5_consumer_before_producer_witness :
    consumerFirst (do_repl_inner false "tank/b" "p" "b" pipeOk).1 = true ∧
    (false = false ∧ ∃ st, pipeOk.recvStatus = some st ∧
      st.code.getD 255 = 0) ∧
    (false = false ∧ ∃ st, pipeOk.recvStatus = some st ∧
      (st.code.getD 255 = 1 ∨ st.code.getD 255 = 0)) :=
  ⟨(C5_consumer_before_producer false "tank/b" "p" "b" "r" pipeOk).1,
    (C5_consumer_before_producer false "tank/b" "p" "b" "r" pipeOk).2.2.1
      (by decide),
    (C5_consumer_before_producer false "tank/b" "p" "b" "r" pipeOk).2.2.2
      (by decide)⟩

end Znapper

namespace Znapper

/-- Unfolding of a `do_repl` session that reached the catalog and precursor
stage: the trace is the snapshot-creation attempt, then (unless creation
failed) the pipeline, then either the compensating removal of the new base
snapshot (pipeline failure) or the best-effort removal of both captured
catalogs (pipeline success). -/
theorem do_repl_unfold (dry : Bool) (fp tp : String) (env : ReplEnv)
    (ts fo tout p : String)
    (h1 : env.nowTs = some ts) (h2 : env.fromOut = some fo)
    (h3 : env.toOut = some tout)
    (h4 : precursorFind (filter_snap_list "repl_" fo)
      (filter_snap_list "repl_" tout) = some p) :
    do_repl dry fp tp env =
      (if (create_recurse_snap dry env.createStatus (fp ++ "@repl_" ++ ts)).2
          = .err then
        (create_recurse_snap dry env.createStatus (fp ++ "@repl_" ++ ts)).1
      else if (do_repl_inner dry tp p (fp ++ "@repl_" ++ ts) env.pipe).2
          = .err then
        (create_recurse_snap dry env.createStatus (fp ++ "@repl_" ++ ts)).1
          ++ (do_repl_inner dry tp p (fp ++ "@repl_" ++ ts) env.pipe).1
          ++ (remove_snap dry (env.removeStatus (fp ++ "@repl_" ++ ts))
            (fp ++ "@repl_" ++ ts)).1
      else
        (create_recurse_snap dry env.createStatus (fp ++ "@repl_" ++ ts)).1
          ++ (do_repl_inner dry tp p (fp ++ "@repl_" ++ ts) env.pipe).1
          ++ cleanupTrace dry env.removeStatus (filter_snap_list "repl_" fo)
          ++ cleanupTrace dry env.removeStatus (filter_snap_list "repl_" tout)) := by
  rcases env with ⟨n, f, t, cs, pp, rs⟩
  simp only at h1 h2 h3
  subst h1
  subst h2
  subst h3
  simp only [do_repl, h4, List.append_assoc]

end Znapper

namespace Znapper

/-- C3: removal discipline of a non-dry `do_repl` session that created its
base snapshot (src/main.rs:438-510).  If the pipeline fails, the destroyed
names are exactly the just-created base snapshot; if the pipeline succeeds,
they are exactly the `repl_`-kind snapshots of the source and destination
catalogs captured at session start; the base snapshot — created after those
catalogs were captured and hence absent from them — is never destroyed on
success. -/
theorem C3_removal_discipline :
    ∀ (fp tp : String) (env : ReplEnv) (ts fo tout p : String)
      (st : ExitStatus),
      env.nowTs = some ts → env.fromOut = some fo → env.toOut = some tout →
      precursorFind (filter_snap_list "repl_" fo)
        (filter_snap_list "repl_" tout) = some p →
      env.createStatus = some st →
      ((do_repl_inner false tp p (fp ++ "@repl_" ++ ts) env.pipe).2 = .err →
        destroys (do_repl false fp tp env) = [fp ++ "@repl_" ++ ts]) ∧
      ((do_repl_inner false tp p (fp ++ "@repl_" ++ ts) env.pipe).2 = .ok →
        destroys (do_repl false fp tp env) =
          filter_snap_list "repl_" fo ++ filter_snap_list "repl_" tout) ∧
      ((do_repl_inner false tp p (fp ++ "@repl_" ++ ts) env.pipe).2 = .ok →
        (fp ++ "@repl_" ++ ts) ∉ filter_snap_list "repl_" fo →
        (fp ++ "@repl_" ++ ts) ∉ filter_snap_list "repl_" tout →
        (fp ++ "@repl_" ++ ts) ∉ destroys (do_repl false fp tp env)) := by
  intro fp tp env ts fo tout p st h1 h2 h3 h4 h5
  have hu := do_repl_unfold false fp tp env ts fo tout p h1 h2 h3 h4
  rw [h5] at hu
  refine ⟨?_, ?_, ?_⟩
  · intro hin
    rw [hu, if_neg (by simp [create_recurse_snap]), if_pos hin]
    simp [destroys_append, destroys_do_repl_inner, create_recurse_snap,
      remove_snap, destroys_createSnap, destroys_destroySnap,
      destroys_cons_create, destroys_cons_destroy, destroys_nil]
  · intro hin
    rw [hu, if_neg (by simp [create_recurse_snap]), if_neg (by simp [hin])]
    simp [destroys_append, destroys_do_repl_inner, destroys_cleanupTrace,
      create_recurse_snap, destroys_createSnap, destroys_cons_create,
      destroys_nil]
  · intro hin hf ht2
    rw [hu, if_neg (by simp [create_recurse_snap]), if_neg (by simp [hin])]
    simp [destroys_append, destroys_do_repl_inner, destroys_cleanupTrace,
      create_recurse_snap, destroys_createSnap, destroys_cons_create,
      destroys_nil, List.mem_append, hf, ht2]

/-- A `do_repl` environment whose every external call succeeds (consumer exit
code `0`), over one-snapshot catalogs with differing pool prefixes. -/
def replOkEnv : ReplEnv :=
  ⟨some "2026_10_12_12_00_00", some "tank@repl_1\n", some "back/tank@repl_1\n",
    some ⟨some 0⟩, pipeOk, fun _ => some ⟨some 0⟩⟩

/-- Closed instance of `C3_removal_discipline` on the success path: exactly
the two captured catalogs are destroyed. -/
theorem C3_removal_discipline_witness :
    destroys (do_repl false "tank" "back/tank" replOkEnv) =
      filter_snap_list "repl_" "tank@repl_1\n"
        ++ filter_snap_list "repl_" "back/tank@repl_1\n" ∧
    "tank" ++ "@repl_" ++ "2026_10_12_12_00_00"
      ∉ destroys (do_repl false "tank" "back/tank" replOkEnv) :=
  ⟨(C3_removal_discipline "tank" "back/tank" replOkEnv "2026_10_12_12_00_00"
      "tank@repl_1\n" "back/tank@repl_1\n" "tank@repl_1" ⟨some 0⟩
      rfl rfl rfl (by decide) rfl).2.1 (by decide),
    (C3_removal_discipline "tank" "back/tank" replOkEnv "2026_10_12_12_00_00"
      "tank@repl_1\n" "back/tank@repl_1\n" "tank@repl_1" ⟨some 0⟩
      rfl rfl rfl (by decide) rfl).2.2 (by decide) (by decide) (by decide)⟩

/-- A `do_init` environment whose consumer `.status()` call fails after the
base snapshot was created and the producer spawned. -/
def initFailEnv : InitEnv :=
  ⟨some "2026_10_12_12_00_00", some "", some ⟨some 0⟩, true, none, none,
    fun _ => some ⟨some 0⟩⟩

/-- C2 counterexample: an `init_repl` session that created its base snapshot
and whose consumer could not be run (`recv.status()` returned `Err`,
src/main.rs:397-409) returns without destroying the just-created snapshot —
its trace creates `tank@repl_…` and destroys nothing, contradicting the claim
that every failed session destroys its unconfirmed base snapshot. -/
theorem C2_counterexample :
    Eff.createSnap true "tank@repl_2026_10_12_12_00_00"
      ∈ do_init false "tank" "backup" initFailEnv ∧
    destroys (do_init false "tank" "backup" initFailEnv) = [] := by
  constructor
  · decide
  · decide

/-- C2 amended: only `repl` sessions (`do_repl`, src/main.rs:497-501) destroy
the just-created unconfirmed base snapshot when the pipeline fails;
`init_repl` sessions (`do_init`, src/main.rs:365-416) return on pipeline
failure — producer spawn failure or consumer run failure — without destroying
anything. -/
theorem C2_amended_failure_cleanup :
    (∀ (fp tp : String) (env : ReplEnv) (ts fo tout p : String)
      (st : ExitStatus),
      env.nowTs = some ts → env.fromOut = some fo → env.toOut = some tout →
      precursorFind (filter_snap_list "repl_" fo)
        (filter_snap_list "repl_" tout) = some p →
      env.createStatus = some st →
      (do_repl_inner false tp p (fp ++ "@repl_" ++ ts) env.pipe).2 = .err →
      Eff.destroySnap (fp ++ "@repl_" ++ ts) ∈ do_repl false fp tp env) ∧
    (∀ (fp tp : String) (env : InitEnv) (ts fo : String) (st : ExitStatus),
      env.nowTs = some ts → env.fromOut = some fo →
      env.createStatus = some st → env.sendSpawn = true →
      env.recvStatus = none →
      destroys (do_init false fp tp env) = []) := by
  constructor
  · intro fp tp env ts fo tout p st h1 h2 h3 h4 h5 hin
    have hu := do_repl_unfold false fp tp env ts fo tout p h1 h2 h3 h4
    rw [h5] at hu
    rw [hu, if_neg (by simp [create_recurse_snap]), if_pos hin]
    simp [remove_snap]
  · intro fp tp env ts fo st h1 h2 h3 h4 h5
    rcases env with ⟨n, f, cs, ss, rs, sw, rmf⟩
    simp only at h1 h2 h3 h4 h5
    subst h1
    subst h2
    subst h3
    subst h4
    subst h5
    simp [do_init, create_recurse_snap, destroys]

/-- A `do_repl` environment identical to `replOkEnv` except that the consumer
exits with code `2`, making the pipeline fail. -/
def replFailEnv : ReplEnv :=
  ⟨some "2026_10_12_12_00_00", some "tank@repl_1\n", some "back/tank@repl_1\n",
    some ⟨some 0⟩, ⟨true, some ⟨some 2⟩, some ⟨some 0⟩⟩,
    fun _ => some ⟨some 0⟩⟩

/-- Closed instance of `C2_amended_failure_cleanup`: the failed `repl` session
destroys its base snapshot, the failed `init_repl` session destroys
nothing. -/
theorem C2_amended_failure_cleanup_witness :
    Eff.destroySnap "tank@repl_2026_10_12_12_00_00"
      ∈ do_repl false "tank" "back/tank" replFailEnv ∧
    destroys (do_init false "tank" "backup" initFailEnv) = [] :=
  ⟨C2_amended_failure_cleanup.1 "tank" "back/tank" replFailEnv
      "2026_10_12_12_00_00" "tank@repl_1\n" "back/tank@repl_1\n" "tank@repl_1"
      ⟨some 0⟩ rfl rfl rfl (by decide) rfl (by decide),
    C2_amended_failure_cleanup.2 "tank" "backup" initFailEnv
      "2026_10_12_12_00_00" "" ⟨some 0⟩ rfl rfl rfl rfl rfl⟩

end Znapper

namespace Znapper

/-- C7: a dry-run `do_repl` session that resolved its precursor performs no
real external effect — no process spawn, no snapshot creation or destruction
(src/main.rs:217-221, 514-519) — yet logs the fully resolved pipeline command
line and proceeds as though the transfer succeeded, logging the dry-run
removal decision for every snapshot of both captured catalogs. -/
theorem C7_dry_run_frame :
    ∀ (fp tp : String) (env : ReplEnv) (ts fo tout p : String),
      env.nowTs = some ts → env.fromOut = some fo → env.toOut = some tout →
      precursorFind (filter_snap_list "repl_" fo)
        (filter_snap_list "repl_" tout) = some p →
      (∀ e ∈ do_repl true fp tp env, e.isReal = false) ∧
      Eff.logDryPipeline (sendCmdIncr p (fp ++ "@repl_" ++ ts) ++ " | "
        ++ recvCmd tp) ∈ do_repl true fp tp env ∧
      (∀ s ∈ filter_snap_list "repl_" fo ++ filter_snap_list "repl_" tout,
        Eff.logDryRemove s ∈ do_repl true fp tp env) := by
  intro fp tp env ts fo tout p h1 h2 h3 h4
  have hu := do_repl_unfold true fp tp env ts fo tout p h1 h2 h3 h4
  have htr : do_repl true fp tp env =
      Eff.logDryCreate (fp ++ "@repl_" ++ ts) ::
        Eff.logDryPipeline (sendCmdIncr p (fp ++ "@repl_" ++ ts) ++ " | "
          ++ recvCmd tp) ::
        ((filter_snap_list "repl_" fo).map Eff.logDryRemove
          ++ (filter_snap_list "repl_" tout).map Eff.logDryRemove) := by
    rw [hu, if_neg (by simp [create_recurse_snap]),
      if_neg (by simp [do_repl_inner])]
    simp [create_recurse_snap, do_repl_inner, cleanupTrace_dry]
  refine ⟨?_, ?_, ?_⟩
  · intro e he
    rw [htr] at he
    simp only [List.mem_cons, List.mem_append, List.mem_map] at he
    rcases he with rfl | rfl | ⟨s, _, rfl⟩ | ⟨s, _, rfl⟩ <;> rfl
  · rw [htr]
    simp
  · intro s hs
    rw [htr]
    simp only [List.mem_cons, List.mem_append, List.mem_map]
    rcases List.mem_append.mp hs with h | h
    · exact Or.inr (Or.inr (Or.inl ⟨s, h, rfl⟩))
    · exact Or.inr (Or.inr (Or.inr ⟨s, h, rfl⟩))

/-- Closed instance of `C7_dry_run_frame`: the dry-run session logs the
resolved pipeline and logs the dry-run removal of a captured catalog entry,
all effects being log lines. -/
theorem C7_dry_run_frame_witness :
    Eff.logDryPipeline (sendCmdIncr "tank@repl_1"
        ("tank" ++ "@repl_" ++ "2026_10_12_12_00_00") ++ " | "
      ++ recvCmd "back/tank") ∈ do_repl true "tank" "back/tank" replOkEnv ∧
    Eff.logDryRemove "tank@repl_1" ∈ do_repl true "tank" "back/tank" replOkEnv ∧
    Eff.isReal (Eff.logDryRemove "tank@repl_1") = false :=
  ⟨(C7_dry_run_frame "tank" "back/tank" replOkEnv "2026_10_12_12_00_00"
      "tank@repl_1\n" "back/tank@repl_1\n" "tank@repl_1"
      rfl rfl rfl (by decide)).2.1,
    (C7_dry_run_frame "tank" "back/tank" replOkEnv "2026_10_12_12_00_00"
      "tank@repl_1\n" "back/tank@repl_1\n" "tank@repl_1"
      rfl rfl rfl (by decide)).2.2 "tank@repl_1" (by decide),
    (C7_dry_run_frame "tank" "back/tank" replOkEnv "2026_10_12_12_00_00"
      "tank@repl_1\n" "back/tank@repl_1\n" "tank@repl_1"
      rfl rfl rfl (by decide)).1 (Eff.logDryRemove "tank@repl_1")
      ((C7_dry_run_frame "tank" "back/tank" replOkEnv "2026_10_12_12_00_00"
        "tank@repl_1\n" "back/tank@repl_1\n" "tank@repl_1"
        rfl rfl rfl (by decide)).2.2 "tank@repl_1" (by decide))⟩

end Znapper

namespace Znapper

theorem parseHexDigit_hexDigitChar : ∀ m, m < 16 →
    parseHexDigit (hexDigitChar m) = some m := by
  decide

theorem dropPrefixChars_append : ∀ (p r : List Char),
    dropPrefixChars p (p ++ r) = some r := by
  intro p r
  induction p with
  | nil => rfl
  | cons c cs ih => simp [dropPrefixChars, ih]

/-- Parsing undoes escaping: the JSON string-body parser applied to an escaped
character sequence followed by the closing quote recovers the sequence and the
remainder. -/
theorem parseStrBody_escapeChars : ∀ (cs tail : List Char),
    parseStrBody (escapeChars cs ++ '"' :: tail) = some (cs, tail) := by
  intro cs tail
  induction cs with
  | nil =>
    simp only [escapeChars, List.nil_append]
    rw [parseStrBody.eq_def]
    simp
  | cons c rest ih =>
    simp only [escapeChars, List.append_assoc]
    by_cases h1 : c = '"'
    · subst h1
      rw [show escChar '"' ++ (escapeChars rest ++ '"' :: tail)
        = '\\' :: '"' :: (escapeChars rest ++ '"' :: tail) from rfl]
      rw [parseStrBody.eq_def]
      simp [decodeEsc, ih]
    · by_cases h2 : c = '\\'
      · subst h2
        rw [show escChar '\\' ++ (escapeChars rest ++ '"' :: tail)
          = '\\' :: '\\' :: (escapeChars rest ++ '"' :: tail) from rfl]
        rw [parseStrBody.eq_def]
        simp [decodeEsc, ih]
      · by_cases h3 : c = '\x08'
        · subst h3
          rw [show escChar '\x08' ++ (escapeChars rest ++ '"' :: tail)
            = '\\' :: 'b' :: (escapeChars rest ++ '"' :: tail) from rfl]
          rw [parseStrBody.eq_def]
          simp [decodeEsc, ih]
        · by_cases h4 : c = '\x0c'
          · subst h4
            rw [show escChar '\x0c' ++ (escapeChars rest ++ '"' :: tail)
              = '\\' :: 'f' :: (escapeChars rest ++ '"' :: tail) from rfl]
            rw [parseStrBody.eq_def]
            simp [decodeEsc, ih]
          · by_cases h5 : c = '\n'
            · subst h5
              rw [show escChar '\n' ++ (escapeChars rest ++ '"' :: tail)
                = '\\' :: 'n' :: (escapeChars rest ++ '"' :: tail) from rfl]
              rw [parseStrBody.eq_def]
              simp [decodeEsc, ih]
            · by_cases h6 : c = '\r'
              · subst h6
                rw [show escChar '\r' ++ (escapeChars rest ++ '"' :: tail)
                  = '\\' :: 'r' :: (escapeChars rest ++ '"' :: tail) from rfl]
                rw [parseStrBody.eq_def]
                simp [decodeEsc, ih]
              · by_cases h7 : c = '\t'
                · subst h7
                  rw [show escChar '\t' ++ (escapeChars rest ++ '"' :: tail)
                    = '\\' :: 't' :: (escapeChars rest ++ '"' :: tail) from rfl]
                  rw [parseStrBody.eq_def]
                  simp [decodeEsc, ih]
                · by_cases h8 : c.toNat < 32
                  · have hd : c.toNat / 16 < 16 := by omega
                    have hm : c.toNat % 16 < 16 := Nat.mod_lt _ (by norm_num)
                    have hesc : escChar c ++ (escapeChars rest ++ '"' :: tail)
                        = '\\' :: 'u' :: '0' :: '0' ::
                          hexDigitChar (c.toNat / 16) ::
                          hexDigitChar (c.toNat % 16) ::
                          (escapeChars rest ++ '"' :: tail) := by
                      simp [escChar, h1, h2, h3, h4, h5, h6, h7, h8]
                    rw [hesc, parseStrBody.eq_def]
                    simp only [show parseHexDigit '0' = some 0 from rfl,
                      parseHexDigit_hexDigitChar _ hd,
                      parseHexDigit_hexDigitChar _ hm, ih]
                    simp only [reduceIte]
                    rw [show ((0 * 16 + 0) * 16 + c.toNat / 16) * 16
                        + c.toNat % 16 = c.toNat from by omega]
                    rw [Char.ofNat_toNat]
                  · have hesc : escChar c ++ (escapeChars rest ++ '"' :: tail)
                        = c :: (escapeChars rest ++ '"' :: tail) := by
                      simp [escChar, h1, h2, h3, h4, h5, h6, h7, h8]
                    rw [hesc, parseStrBody.eq_def]
                    simp [h1, h2, ih]

/-- C9: the archive metadata round-trip is the identity on the precursor
identifier — `serde_json::to_writer` of `RemoteMetadata { precursor_snap }`
(src/main.rs:630-638) followed by `serde_json::from_reader`
(src/main.rs:796-809) yields exactly the identifier written — and a
`remote_repl` session reading a sidecar written for identifier `id` runs its
pipeline with precursor `id`. -/
theorem C9_metadata_roundtrip :
    (∀ precursor_snap : String,
      readMeta (writeMeta precursor_snap) = some precursor_snap) ∧
    (∀ (id remote_ssh basesnap : String) (env : RemoteEnv),
      env.metaFile = some (writeMeta id) →
      get_auto_basesnap (env.autoOut (splitFirst id)) = some basesnap →
      do_repl_remote false remote_ssh env =
        do_remote_pipeline false remote_ssh id basesnap env.pipe) := by
  have hrt : ∀ precursor_snap : String,
      readMeta (writeMeta precursor_snap) = some precursor_snap := by
    intro id
    rw [readMeta, writeMeta]
    have hasd : (List.asString (escapeChars id.data)).data
        = escapeChars id.data := rfl
    have hdata : ("\x7b\"precursor_snap\":\""
          ++ (escapeChars id.data).asString ++ "\"\x7d").data
        = "\x7b\"precursor_snap\":\"".data
          ++ (escapeChars id.data ++ '"' :: ['\x7d']) := by
      simp only [String.data_append, List.append_assoc, hasd]
    rw [hdata, dropPrefixChars_append]
    simp only [parseStrBody_escapeChars]
    simp only [if_true, reduceIte]
    exact congrArg some (String.asString_toList id)
  refine ⟨hrt, ?_⟩
  intro id remote_ssh basesnap env h1 h2
  rw [do_repl_remote, h1]
  rw [show (some (writeMeta id)).bind readMeta = readMeta (writeMeta id)
    from rfl]
  rw [hrt id]
  simp only [h2]

/-- A `do_repl_remote` environment holding a sidecar written for
`tank@auto_1` and a two-snapshot `auto_` catalog. -/
def remoteEnvW : RemoteEnv :=
  ⟨some (writeMeta "tank@auto_1"),
    fun _ => some "tank@auto_1\ntank@auto_2\n", pipeOk⟩

/-- Closed instance of `C9_metadata_roundtrip`: the round-trip on a concrete
identifier and the remote session recovering it. -/
theorem C9_metadata_roundtrip_witness :
    readMeta (writeMeta "tank@auto_1") = some "tank@auto_1" ∧
    do_repl_remote false "backup@host" remoteEnvW =
      do_remote_pipeline false "backup@host" "tank@auto_1" "auto_2" pipeOk :=
  ⟨C9_metadata_roundtrip.1 "tank@auto_1",
    C9_metadata_roundtrip.2 "tank@auto_1" "backup@host" "auto_2" remoteEnvW
      rfl (by decide)⟩

end Znapper
